import Mathlib

set_option maxRecDepth 8192

/-!
Shallow embedding of the KAMAR API client (src/index.js) and proofs about
its decoding pipeline.  Every definition mirrors a concrete construct of
the JavaScript source; JavaScript-semantics helpers (split, substring,
truthiness, array index) are modelled explicitly so that partial accesses
(`undefined[...]`, `undefined.split(...)`) show up as `Option`/failure.
-/

namespace Kamar

/-! ## JavaScript string and array primitives -/

/-- Model of JavaScript `String.prototype.split` with a single-character
separator: splits the character list at every occurrence of `sep`,
keeping empty segments, and yields `[[]]` on the empty string
(`''.split(x) == ['']` in JS). -/
def splitChar (sep : Char) : List Char → List (List Char)
  | [] => [[]]
  | c :: cs =>
    match splitChar sep cs with
    | [] => [[c]]
    | h :: t => if c = sep then [] :: h :: t else (c :: h) :: t

/-- JavaScript `s.split(sep)` for a one-character separator, on `String`. -/
def jsSplit (s : String) (sep : Char) : List String :=
  (splitChar sep s.data).map String.mk

/-- JavaScript `s.substring(0, n)`: the first `min n (length s)` characters;
it never pads. -/
def jsSubstring0 (s : String) (n : Nat) : String :=
  String.mk (s.data.take n)

/-- JavaScript array indexing `a[i]` on a list of strings: `none` models
`undefined` when the index is out of range. -/
def jsIndex (l : List String) (i : Nat) : Option String :=
  l.get? i

/-- Truthiness of a JavaScript string-or-undefined value: `undefined` and
the empty string are falsy, every other string is truthy. -/
def jsFalsy : Option String → Bool
  | none => true
  | some s => s == ""

/-- JavaScript `a || b` where both operands are string-or-undefined
values: yields `b` exactly when `a` is falsy. -/
def jsOrOpt (a b : Option String) : Option String :=
  if jsFalsy a then b else a

/-- JavaScript `a || b` where `a` is string-or-undefined and `b` is a
string literal fallback. -/
def jsOrStr (a : Option String) (b : String) : String :=
  if jsFalsy a then b else a.getD b

/-- Whether `pat` occurs as a contiguous sublist of `l`; this is the
semantics of JavaScript `s.match(pat)` being truthy for a pattern with no
regex metacharacters. -/
def containsList (pat : List Char) : List Char → Bool
  | [] => pat.isEmpty
  | c :: cs => pat.isPrefixOf (c :: cs) || containsList pat cs

/-- JavaScript `s.match(pat)` truthiness for a plain-text pattern. -/
def matchSubstr (s pat : String) : Bool :=
  containsList pat.data s.data

/-! ## Timetable period decoding (src/index.js lines 167-193) -/

/-- A decoded timetable period, as built at src/index.js lines 177-181.
Fields are `Option String` because the JS object fields hold `undefined`
when the slot has too few `-`-separated fields. -/
structure TimetablePeriod where
  subject : Option String
  teacher : Option String
  location : Option String
deriving DecidableEq, Repr

/-- Decode of one period slot string (lines 176-181):
`Px = slot.split('-')`, then
`subject = Px[2]`, `location = Px[4] || Px[2]`, `teacher = Px[3]`. -/
def decodeSlot (s : String) : TimetablePeriod :=
  let Px := jsSplit s '-'
  { subject := jsIndex Px 2
    teacher := jsIndex Px 3
    location := jsOrOpt (jsIndex Px 4) (jsIndex Px 2) }

/-- JavaScript `arr.length = 8` on an array of strings: truncate when
longer, extend with `undefined` holes (`none`) when shorter
(line 174). -/
def jsSetLength8 (l : List String) : List (Option String) :=
  (l.map some ++ List.replicate 8 none).take 8

/-- Decode a list of period slots in order.  A `none` slot models an
`undefined` array hole, on which `slot.split('-')` throws a `TypeError`;
the whole decode then fails (`none`). -/
def decodePeriods : List (Option String) → Option (List TimetablePeriod)
  | [] => some []
  | none :: _ => none
  | some s :: rest => (decodePeriods rest).map (fun ps => decodeSlot s :: ps)

/-- Decode of one day string (lines 173-182): split on `|`, force the
array length to 8, then decode slots 1..7 (slot 0 is the header). -/
def decodeDay (raw : String) : Option (List TimetablePeriod) :=
  decodePeriods ((jsSetLength8 (jsSplit raw '|')).drop 1)

end Kamar

namespace Kamar

/-! ## Claim C1 -/

/-- Claim C1: the period-slot decoder splits on `-` and maps field 2 to
`subject`, field 3 to `teacher`, and field 4 to `location` when that
field is non-empty, otherwise `location` falls back to field 2 (the
subject); the slot `"A-B-Math-Smith-Room5"` decodes to subject `Math`,
teacher `Smith`, location `Room5`, and with an empty location field the
location equals the subject. -/
theorem c1_period_slot_decode (s : String) :
    (decodeSlot s).subject = jsIndex (jsSplit s '-') 2
    ∧ (decodeSlot s).teacher = jsIndex (jsSplit s '-') 3
    ∧ (∀ loc, jsIndex (jsSplit s '-') 4 = some loc → loc ≠ "" →
        (decodeSlot s).location = some loc)
    ∧ (jsFalsy (jsIndex (jsSplit s '-') 4) = true →
        (decodeSlot s).location = jsIndex (jsSplit s '-') 2)
    ∧ decodeSlot "A-B-Math-Smith-Room5" =
        ⟨some "Math", some "Smith", some "Room5"⟩
    ∧ decodeSlot "A-B-Math-Smith-" = ⟨some "Math", some "Smith", some "Math"⟩ := by
  refine ⟨rfl, rfl, ?_, ?_, by decide, by decide⟩
  · intro loc h4 hne
    simp only [decodeSlot, jsOrOpt, jsFalsy, h4]
    simp [hne]
  · intro hf
    simp [decodeSlot, jsOrOpt, hf]

/-- Witness for C1 at the concrete slots of the claim. -/
theorem c1_period_slot_decode_witness :
    (decodeSlot "A-B-Math-Smith-Room5").location = some "Room5" :=
  (c1_period_slot_decode "A-B-Math-Smith-Room5").2.2.1 "Room5" (by decide) (by decide)

/-! ## Claim C2 -/

theorem decodePeriods_map_some (m : List String) :
    decodePeriods (m.map some) = some (m.map decodeSlot) := by
  induction m with
  | nil => rfl
  | cons a as ih => simp [decodePeriods, ih]

theorem decodePeriods_of_mem_none {m : List (Option String)} (h : none ∈ m) :
    decodePeriods m = none := by
  induction m with
  | nil => cases h
  | cons a as ih =>
    cases a with
    | none => rfl
    | some s =>
      rcases List.mem_cons.mp h with h1 | h2
      · exact absurd h1 (by simp)
      · simp [decodePeriods, ih h2]

theorem jsSetLength8_of_le {l : List String} (h : l.length ≤ 8) :
    jsSetLength8 l = l.map some ++ List.replicate (8 - l.length) none := by
  have hm : (l.map some).length = l.length := List.length_map l some
  rw [jsSetLength8, List.take_append_eq_append_take, hm,
    List.take_of_length_le (by omega), List.take_replicate]
  congr 1
  congr 1
  omega

theorem jsSetLength8_of_ge {l : List String} (h : 8 ≤ l.length) :
    jsSetLength8 l = (l.take 8).map some := by
  have hm : (l.map some).length = l.length := List.length_map l some
  rw [jsSetLength8, List.take_append_eq_append_take, hm, List.take_replicate]
  have h8 : 8 - l.length = 0 := by omega
  rw [h8]
  simp [List.map_take]

/-- C2 counterexample: the claim says period decoding of slots 1..7 never
fails however many `|` delimiters the input contains, but a day string
with no `|` at all (one slot from the split) makes `arr.length = 8`
create `undefined` holes, and decoding slot 1 throws, failing the whole
day decode. -/
theorem c2_day_split_counterexample :
    (jsSplit "X" '|').length = 1 ∧ decodeDay "X" = none := by decide

/-- Claim C2 as amended: the day string is split on `|` and the array
length is forced to 8 — more than 8 slots are truncated to 8, but fewer
than 8 slots leave `undefined` holes rather than empty-string padding, so
period decoding of slots 1..7 fails exactly when the split yields fewer
than 8 slots; when it yields at least 8, the decode succeeds with the 7
periods of slots 1..7 of the first 8. -/
theorem c2_day_split_amended (raw : String) :
    ((jsSplit raw '|').length < 8 → decodeDay raw = none)
    ∧ (8 ≤ (jsSplit raw '|').length →
        decodeDay raw = some ((((jsSplit raw '|').take 8).drop 1).map decodeSlot)
        ∧ ∀ ps, decodeDay raw = some ps → ps.length = 7) := by
  constructor
  · intro hlt
    apply decodePeriods_of_mem_none
    rw [jsSetLength8_of_le (by omega)]
    cases hsp : jsSplit raw '|' with
    | nil =>
      simp [List.mem_replicate]
    | cons a as =>
      rw [hsp] at hlt
      have : (some a :: as.map some) ++ List.replicate (8 - (a :: as).length) none
          = some a :: (as.map some ++ List.replicate (8 - (a :: as).length) none) := rfl
      simp only [List.map_cons, this, List.drop_succ_cons, List.drop_zero]
      refine List.mem_append_right _ ?_
      rw [List.mem_replicate]
      refine ⟨by simp at hlt ⊢; omega, rfl⟩
  · intro hge
    have hd : decodeDay raw
        = some ((((jsSplit raw '|').take 8).drop 1).map decodeSlot) := by
      rw [decodeDay, jsSetLength8_of_ge hge, ← List.map_drop, decodePeriods_map_some]
    refine ⟨hd, ?_⟩
    intro ps hps
    rw [hd] at hps
    have := Option.some.inj hps
    subst this
    have hlen : ((jsSplit raw '|').take 8).length = 8 := by
      rw [List.length_take]
      omega
    rw [List.length_map, List.length_drop, hlen]

/-- Witness for C2 (amended) at concrete inputs: a day string with 8
slots decodes to 7 periods, and one with a single slot fails. -/
theorem c2_day_split_amended_witness :
    decodeDay "h|a|b|c|d|e|f|g"
      = some ((((jsSplit "h|a|b|c|d|e|f|g" '|').take 8).drop 1).map decodeSlot)
    ∧ decodeDay "X" = none :=
  ⟨((c2_day_split_amended "h|a|b|c|d|e|f|g").2 (by decide)).1,
   (c2_day_split_amended "X").1 (by decide)⟩

/-! ## Attendance decoding (src/index.js lines 96-117) -/

/-- Decode of one weekday attendance slot (line 110):
`(days[j]._ || '----------').substring(0, 7)`.  The fallback literal in
the source is ten dashes; `substring(0, 7)` keeps only seven. -/
def decodeDayStatus (t : Option String) : String :=
  jsSubstring0 (jsOrStr t "----------") 7

/-- One `Week` entry of a `StudentAttendanceResults` response:
`WeekStart[0]` and the list of `Days[0].Day` text contents (`none` when
the element carries no text). -/
structure WeekEntry where
  weekStart : String
  days : List (Option String)
deriving DecidableEq, Repr

/-- Line 103: `const daysManifest = 'Mon Tue Wed Thu Fri'.split(' ')`. -/
def daysManifest : List String :=
  ["Mon", "Tue", "Wed", "Thu", "Fri"]

/-- A decoded attendance week (lines 105-110): the `$` field holds
`WeekStart[0]` and each day slot maps a manifest name to a status. -/
structure AbsenceWeek where
  weekStart : String
  days : List (String × String)
deriving DecidableEq, Repr

/-- Decode of one week entry (loop body, lines 105-110). -/
def decodeAbsenceWeek (w : WeekEntry) : AbsenceWeek :=
  { weekStart := w.weekStart
    days := (List.range w.days.length).map (fun j =>
      (daysManifest.getD j "undefined", decodeDayStatus (w.days.getD j none))) }

/-- Decode of the attendance response (lines 101-115): the list of
decoded weeks together with the new `this.WkNo` written at line 112. -/
def decodeAbsences (weeks : List WeekEntry) : List AbsenceWeek × Nat :=
  let a := weeks.map decodeAbsenceWeek
  (a, a.length)

/-! ## Claim C6 -/

theorem length_jsSubstring0 (s : String) (n : Nat) :
    (jsSubstring0 s n).length = min n s.length := by
  obtain ⟨l⟩ := s
  simp [jsSubstring0, String.length_mk, List.length_take]

/-- C6 counterexample: the claim says every decoded status is exactly
7 characters (truncated or padded), but a present day text shorter than
7 characters is returned unpadded: text `"abc"` decodes to `"abc"` of
length 3. -/
theorem c6_status_length_counterexample :
    decodeDayStatus (some "abc") = "abc"
    ∧ (decodeDayStatus (some "abc")).length = 3 := by decide

/-- Claim C6 as amended: the decoded status is the slot text truncated
to at most 7 characters — `substring(0, 7)` never pads — so it has
exactly 7 characters only when the text has at least 7; when the slot
text is absent (or empty, which is falsy) the status is exactly the
7-character placeholder `"-------"`. -/
theorem c6_status_length_amended (t : Option String) :
    (decodeDayStatus t).length ≤ 7
    ∧ (t = none → decodeDayStatus t = "-------")
    ∧ (t = some "" → decodeDayStatus t = "-------")
    ∧ (∀ s, t = some s → s ≠ "" → decodeDayStatus t = jsSubstring0 s 7)
    ∧ (∀ s, t = some s → 7 ≤ s.length → (decodeDayStatus t).length = 7) := by
  refine ⟨?_, ?_, ?_, ?_, ?_⟩
  · rw [decodeDayStatus, length_jsSubstring0]
    omega
  · rintro rfl
    decide
  · rintro rfl
    decide
  · rintro s rfl hne
    have : jsFalsy (some s) = false := by
      simp [jsFalsy, hne]
    simp [decodeDayStatus, jsOrStr, this]
  · rintro s rfl hlen
    have hne : s ≠ "" := by
      intro h
      rw [h] at hlen
      simp [String.length] at hlen
    have : jsFalsy (some s) = false := by
      simp [jsFalsy, hne]
    simp [decodeDayStatus, jsOrStr, this, length_jsSubstring0]
    omega

/-- Witness for C6 (amended) at concrete slots. -/
theorem c6_status_length_amended_witness :
    decodeDayStatus none = "-------"
    ∧ decodeDayStatus (some "") = "-------"
    ∧ decodeDayStatus (some "1234567890") = jsSubstring0 "1234567890" 7 :=
  ⟨(c6_status_length_amended none).2.1 rfl,
   (c6_status_length_amended (some "")).2.2.1 rfl,
   (c6_status_length_amended (some "1234567890")).2.2.2.1 "1234567890" rfl (by decide)⟩

/-! ## Timetable week lookup and sequencing (src/index.js lines 145-200) -/

/-- Week lookup key built at line 173: `'W' + WeekNumber`. -/
def weekKey (n : Nat) : String :=
  "W" ++ toString n

/-- Day lookup key built at line 173: `'D' + day`. -/
def dayKey (d : Nat) : String :=
  "D" ++ toString d

/-- A decoded timetable week: the `$weekNo` tag (line 186) and the five
weekday period lists MO..FR (lines 187-191). -/
structure TimetableWeek where
  weekNo : Nat
  days : List (List TimetablePeriod)
deriving DecidableEq, Repr

/-- The `TimetableData` collection: a week key maps to a day table, a day
key maps to the day's raw string; `none` models an absent key, whose
member access throws. -/
def TimetableData : Type :=
  String → Option (String → Option String)

/-- `getTimetableForWeek` (lines 167-193): compute
`WeekNumber = thisWkNo + weekOffset`, look the week up by `weekKey`,
decode days 1..5 by `dayKey`, and tag the result with `WeekNumber`. -/
def getTimetableForWeek (td : TimetableData) (thisWkNo offset : Nat) :
    Option TimetableWeek :=
  match td (weekKey (thisWkNo + offset)) with
  | none => none
  | some wk =>
    match (List.range 5).mapM (fun d => (wk (dayKey (d + 1))).bind decodeDay) with
    | none => none
    | some ds => some ⟨thisWkNo + offset, ds⟩

/-- Lines 194-197: the timetable decode resolves with this week (offset
0) and next week (offset 1). -/
def getTimeTableWeeks (td : TimetableData) (wkNo : Nat) :
    Option (TimetableWeek × TimetableWeek) :=
  match getTimetableForWeek td wkNo 0 with
  | none => none
  | some a =>
    match getTimetableForWeek td wkNo 1 with
    | none => none
    | some b => some (a, b)

/-! ## Claim C3 -/

/-- Claim C3: a successful attendance decode of `N` week entries sets
the session week index to `N`, and the timetable decode then requests
weeks `N` and `N+1`: it looks the day collections up by keys `"W" + N`
and `"W" + (N+1)` and tags the two returned weeks with week numbers `N`
and `N+1`; with 3 attendance weeks the keys are `"W3"` and `"W4"`. -/
theorem c3_week_index_sequencing (weeks : List WeekEntry) (td : TimetableData) :
    (decodeAbsences weeks).2 = weeks.length
    ∧ (∀ w, getTimetableForWeek td weeks.length 0 = some w → w.weekNo = weeks.length)
    ∧ (∀ w, getTimetableForWeek td weeks.length 1 = some w → w.weekNo = weeks.length + 1)
    ∧ (td (weekKey weeks.length) = none → getTimetableForWeek td weeks.length 0 = none)
    ∧ (td (weekKey (weeks.length + 1)) = none → getTimetableForWeek td weeks.length 1 = none)
    ∧ (∀ a b, getTimeTableWeeks td weeks.length = some (a, b) →
        a.weekNo = weeks.length ∧ b.weekNo = weeks.length + 1)
    ∧ weekKey 3 = "W3" ∧ weekKey 4 = "W4" := by
  have hweek : ∀ off w, getTimetableForWeek td weeks.length off = some w →
      w.weekNo = weeks.length + off := by
    intro off w h
    rw [getTimetableForWeek] at h
    split at h
    · cases h
    · split at h
      · cases h
      · cases h
        rfl
  refine ⟨by simp [decodeAbsences], fun w h => hweek 0 w h, hweek 1, ?_, ?_, ?_, by decide, by decide⟩
  · intro h
    rw [getTimetableForWeek, Nat.add_zero, h]
  · intro h
    rw [getTimetableForWeek, h]
  · intro a b h
    rw [getTimeTableWeeks] at h
    cases h0 : getTimetableForWeek td weeks.length 0 with
    | none => rw [h0] at h; cases h
    | some x =>
      rw [h0] at h
      cases h1 : getTimetableForWeek td weeks.length 1 with
      | none => rw [h1] at h; cases h
      | some y =>
        rw [h1] at h
        simp only [Option.some.injEq, Prod.mk.injEq] at h
        obtain ⟨rfl, rfl⟩ := h
        exact ⟨hweek 0 x h0, hweek 1 y h1⟩

/-- Three concrete attendance week entries. -/
def weeks3 : List WeekEntry :=
  [⟨"2024-01-29", [some "P", none, some "", some "1234567890", some "abc"]⟩,
   ⟨"2024-02-05", []⟩,
   ⟨"2024-02-12", [none]⟩]

/-- A timetable-data collection with no week keys at all. -/
def tdEmpty : TimetableData :=
  fun _ => none

/-- Witness for C3 at a concrete response: 3 attendance weeks give week
index 3, the requested keys are `"W3"` and `"W4"`, and a collection
lacking key `"W3"` makes the week-3 lookup fail. -/
theorem c3_week_index_sequencing_witness :
    (decodeAbsences weeks3).2 = 3
    ∧ weekKey 3 = "W3" ∧ weekKey 4 = "W4"
    ∧ getTimetableForWeek tdEmpty 3 0 = none :=
  ⟨(c3_week_index_sequencing weeks3 tdEmpty).1,
   (c3_week_index_sequencing weeks3 tdEmpty).2.2.2.2.2.2.1,
   (c3_week_index_sequencing weeks3 tdEmpty).2.2.2.2.2.2.2,
   (c3_week_index_sequencing weeks3 tdEmpty).2.2.2.1 rfl⟩

/-! ## Claim C4 -/

/-- Credentials as passed to `getTimeTable` (line 145). -/
structure Credentials where
  username : String
  key : String
  authLevel : Option Nat
deriving DecidableEq, Repr

/-- Truthiness of a JavaScript number-or-undefined: `undefined` and `0`
are falsy. -/
def jsFalsyNat : Option Nat → Bool
  | none => true
  | some n => n == 0

/-- Student timetable command form (lines 153-158). -/
def studentTimetableForm (c : Credentials) (grid : String) : List (String × String) :=
  [("Command", "GetStudentTimetable"), ("Key", c.key),
   ("StudentID", c.username), ("Grid", grid)]

/-- Teacher timetable command form (lines 159-165), selected when
`credentials.authLevel && credentials.authLevel == 10`. -/
def teacherTimetableForm (c : Credentials) (grid : String) : List (String × String) :=
  [("Command", "GetTeacherTimetable"), ("Key", c.key),
   ("Grid", grid), ("Tchr", c.username)]

/-- Form selection of lines 153-165. -/
def timetableForm (c : Credentials) (grid : String) : List (String × String) :=
  match c.authLevel with
  | some 10 => teacherTimetableForm c grid
  | _ => studentTimetableForm c grid

/-- Outcome of entering `getTimeTable` (lines 146-166): either the
promise is rejected before any network call, or the timetable command is
issued. -/
inductive TimetableCall where
  | stateError (msg : String) : TimetableCall
  | command (form : List (String × String)) : TimetableCall
deriving DecidableEq, Repr

/-- The message of the rejection at lines 149-151. -/
def mustFetchAbsencesMsg : String :=
  "You must fetch the Absences before you can download the TimeTable - see https://github.com/TGS-App/API/issues/1"

/-- Entry of `getTimeTable` (lines 146-166): `var thisWkNo = this.WkNo;
if (!thisWkNo) ... return reject(Error(msg));` else issue the command. -/
def getTimeTableEntry (wkNo : Option Nat) (c : Credentials) (grid : String) :
    TimetableCall :=
  if jsFalsyNat wkNo then .stateError mustFetchAbsencesMsg
  else .command (timetableForm c grid)

/-- Claim C4: on a fresh session, whose week index is unset, the
timetable decoder always rejects with the state error and never issues
the timetable command. -/
theorem c4_fresh_session_state_error (c : Credentials) (grid : String) :
    getTimeTableEntry none c grid = .stateError mustFetchAbsencesMsg
    ∧ ∀ form, getTimeTableEntry none c grid ≠ .command form := by
  constructor
  · rfl
  · intro form h
    cases h

/-- Witness for C4 at concrete credentials. -/
theorem c4_fresh_session_state_error_witness :
    getTimeTableEntry none ⟨"student1", "key1", none⟩ "2024TT"
      = .stateError mustFetchAbsencesMsg :=
  (c4_fresh_session_state_error ⟨"student1", "key1", none⟩ "2024TT").1

/-! ## Grade normalization (src/index.js lines 326-334) -/

/-- The five grade classes of the specification; `Unknown` is the
fall-through branch of `colourGrade` (line 332), which logs the grade
and leaves it unnormalized. -/
inductive Grade where
  | E : Grade
  | M : Grade
  | N : Grade
  | A : Grade
  | Unknown : Grade
deriving DecidableEq, Repr

/-- Faithful model of `colourGrade` (lines 326-334): returns the pair
`[orgGrade, grade]` plus whether the fall-through debug log fired.  The
regex `/Achieve(ment|d)/` matches exactly when the text contains
`"Achievement"` or `"Achieved"`. -/
def colourGrade (org : String) : String × String × Bool :=
  if matchSubstr org "Excellence" then (org, "E", false)
  else if matchSubstr org "Merit" then (org, "M", false)
  else if matchSubstr org "Not" then (org, "N", false)
  else if matchSubstr org "Achievement" || matchSubstr org "Achieved" then (org, "A", false)
  else (org, org, true)

/-- The classification the branches of `colourGrade` implement, with
the fall-through branch read as `Unknown`. -/
def classifyGrade (org : String) : Grade :=
  if matchSubstr org "Excellence" then .E
  else if matchSubstr org "Merit" then .M
  else if matchSubstr org "Not" then .N
  else if matchSubstr org "Achievement" || matchSubstr org "Achieved" then .A
  else .Unknown

/-! ## Claim C5 -/

/-- Claim C5: grade normalization is a total first-match ordered
classification over the substring tests Excellence, Merit, Not,
Achieve(ment|d); any raw grade containing `"Excellence"` normalizes to
`E` whatever else it contains; and when no test matches, the grade is
classified `Unknown`, the event is logged (the debug flag fires) and
nothing is thrown — the function still returns a value, keeping the raw
grade. -/
theorem c5_grade_first_match (s : String) :
    (matchSubstr s "Excellence" = true → colourGrade s = (s, "E", false))
    ∧ (matchSubstr s "Excellence" = false → matchSubstr s "Merit" = true →
        colourGrade s = (s, "M", false))
    ∧ (matchSubstr s "Excellence" = false → matchSubstr s "Merit" = false →
        matchSubstr s "Not" = true → colourGrade s = (s, "N", false))
    ∧ (matchSubstr s "Excellence" = false → matchSubstr s "Merit" = false →
        matchSubstr s "Not" = false →
        (matchSubstr s "Achievement" || matchSubstr s "Achieved") = true →
        colourGrade s = (s, "A", false))
    ∧ (matchSubstr s "Excellence" = false → matchSubstr s "Merit" = false →
        matchSubstr s "Not" = false →
        (matchSubstr s "Achievement" || matchSubstr s "Achieved") = false →
        colourGrade s = (s, s, true) ∧ classifyGrade s = .Unknown)
    ∧ ((colourGrade s).2.2 = true ↔ classifyGrade s = .Unknown) := by
  refine ⟨?_, ?_, ?_, ?_, ?_, ?_⟩
  · intro h1
    simp [colourGrade, h1]
  · intro h1 h2
    simp [colourGrade, h1, h2]
  · intro h1 h2 h3
    simp [colourGrade, h1, h2, h3]
  · intro h1 h2 h3 h4
    simp only [colourGrade, h1, h2, h3, h4]
    rfl
  · intro h1 h2 h3 h4
    constructor
    · simp only [colourGrade, h1, h2, h3, h4]
      rfl
    · simp only [classifyGrade, h1, h2, h3, h4]
      rfl
  · rw [colourGrade, classifyGrade]
    by_cases h1 : matchSubstr s "Excellence" <;>
      by_cases h2 : matchSubstr s "Merit" <;>
      by_cases h3 : matchSubstr s "Not" <;>
      by_cases h4 : (matchSubstr s "Achievement" || matchSubstr s "Achieved") = true <;>
      simp [h1, h2, h3, h4]

/-- Witness for C5 at concrete raw grades: `"Merit with Excellence"`
classifies `E` by first match, and `"Pending"` falls through to the
logged `Unknown` branch. -/
theorem c5_grade_first_match_witness :
    colourGrade "Merit with Excellence" = ("Merit with Excellence", "E", false)
    ∧ colourGrade "Pending" = ("Pending", "Pending", true)
    ∧ classifyGrade "Pending" = .Unknown :=
  ⟨(c5_grade_first_match "Merit with Excellence").1 (by decide),
   ((c5_grade_first_match "Pending").2.2.2.2.1 (by decide) (by decide)
      (by decide) (by decide)).1,
   ((c5_grade_first_match "Pending").2.2.2.2.1 (by decide) (by decide)
      (by decide) (by decide)).2⟩

/-! ## Envelope unwrapping in fetch (src/index.js lines 43-53) -/

/-- The fields of the sole top-level result object that the error check
at lines 47-51 reads: `Error` and `ErrorCode`, each an optional
one-element-wrapped list of strings. -/
structure EnvelopeBody where
  error : Option (List String)
  errorCode : Option (List String)
deriving DecidableEq, Repr

/-- A deserialized response: the sole top-level key (line 46) and its
body. -/
structure ParsedResponse where
  resultKey : String
  body : EnvelopeBody
deriving DecidableEq, Repr

/-- The remote-error object built at lines 48-51. -/
structure RemoteError where
  message : String
  code : String
deriving DecidableEq, Repr

/-- One settlement attempt of the promise: a `resolve` or a `reject`
call. -/
inductive Settle (α ε : Type) where
  | resolved (a : α) : Settle α ε
  | rejected (e : ε) : Settle α ε
deriving DecidableEq, Repr

/-- JavaScript `arr[0]` coerced into a string position: an empty array
gives `undefined`. -/
def jsHead (l : List String) : String :=
  l.headD "undefined"

/-- The ordered settlement attempts the `parseString` callback makes
(lines 46-52): when `Error` is present it first calls `reject` with the
remote error and then — there is no `return` — still calls `resolve`;
when `Error` is absent only `resolve` runs.  Reading `ErrorCode[0]`
while `ErrorCode` is `undefined` throws, settling nothing (`none`). -/
def dispatchSettlements (r : ParsedResponse) :
    Option (List (Settle ParsedResponse RemoteError)) :=
  match r.body.error with
  | none => some [.resolved r]
  | some es =>
    match r.body.errorCode with
    | none => none
    | some cs => some [.rejected ⟨jsHead es, jsHead cs⟩, .resolved r]

/-- A promise keeps only its first settlement; later `resolve`/`reject`
calls are ignored. -/
def promiseOutcome (l : List (Settle ParsedResponse RemoteError)) :
    Option (Settle ParsedResponse RemoteError) :=
  l.head?

/-! ## Claim C7 -/

/-- Claim C7: when the sole top-level result object carries an `Error`
field, dispatch settles as a rejection carrying `message = Error[0]` and
`code = ErrorCode[0]`; the late `resolve` call is ignored, so the result
object is never delivered; when `Error` is absent, dispatch resolves
with the deserialized root unchanged. -/
theorem c7_remote_error_dispatch (r : ParsedResponse) (m c : String)
    (ms cs : List String) :
    (r.body.error = some (m :: ms) → r.body.errorCode = some (c :: cs) →
      dispatchSettlements r = some [.rejected ⟨m, c⟩, .resolved r]
        ∧ promiseOutcome [.rejected ⟨m, c⟩, .resolved r] = some (.rejected ⟨m, c⟩)
        ∧ ∀ x, promiseOutcome [.rejected ⟨m, c⟩, .resolved r] ≠ some (.resolved x))
    ∧ (r.body.error = none →
      dispatchSettlements r = some [.resolved r]
        ∧ promiseOutcome [.resolved r] = some (.resolved r)) := by
  constructor
  · intro hE hC
    refine ⟨?_, rfl, ?_⟩
    · rw [dispatchSettlements, hE, hC]
      rfl
    · intro x h
      simp [promiseOutcome] at h
  · intro hE
    refine ⟨?_, rfl⟩
    rw [dispatchSettlements, hE]

/-- Witness for C7 at a concrete errored response and a concrete clean
response. -/
theorem c7_remote_error_dispatch_witness :
    dispatchSettlements ⟨"LogonResults", ⟨some ["Invalid Key"], some ["-2"]⟩⟩
      = some [.rejected ⟨"Invalid Key", "-2"⟩,
              .resolved ⟨"LogonResults", ⟨some ["Invalid Key"], some ["-2"]⟩⟩]
    ∧ promiseOutcome [.rejected ⟨"Invalid Key", "-2"⟩,
          .resolved ⟨"LogonResults", ⟨some ["Invalid Key"], some ["-2"]⟩⟩]
        = some (.rejected ⟨"Invalid Key", "-2"⟩)
    ∧ dispatchSettlements ⟨"LogonResults", ⟨none, none⟩⟩
        = some [.resolved ⟨"LogonResults", ⟨none, none⟩⟩] :=
  ⟨((c7_remote_error_dispatch ⟨"LogonResults", ⟨some ["Invalid Key"], some ["-2"]⟩⟩
      "Invalid Key" "-2" [] []).1 rfl rfl).1,
   ((c7_remote_error_dispatch ⟨"LogonResults", ⟨some ["Invalid Key"], some ["-2"]⟩⟩
      "Invalid Key" "-2" [] []).1 rfl rfl).2.1,
   ((c7_remote_error_dispatch ⟨"LogonResults", ⟨none, none⟩⟩ "" "" [] []).2 rfl).1⟩

/-! ## NCEA summary decoding (src/index.js lines 375-435) -/

/-- The six credit columns of a credit record.  Each field is `none`
when the element is absent from the response; a present field holds the
one-element wrapped value, and the wrapper array is what JavaScript
truthiness sees — a non-empty array is truthy even when it wraps
`"0"`. -/
structure CreditFields where
  NotAchieved : Option (List String)
  Achieved : Option (List String)
  Merit : Option (List String)
  Excellence : Option (List String)
  Total : Option (List String)
  Attempted : Option (List String)
deriving DecidableEq, Repr

/-- Line 385: `cols = 'NotAchieved Achieved Merit Excellence Total
Attempted'.split(' ')`. -/
def colsManifest : List String :=
  ["NotAchieved", "Achieved", "Merit", "Excellence", "Total", "Attempted"]

/-- Dynamic field access `s[i][cols[j]]` over the six credit columns. -/
def getCol (r : CreditFields) : String → Option (List String)
  | "NotAchieved" => r.NotAchieved
  | "Achieved" => r.Achieved
  | "Merit" => r.Merit
  | "Excellence" => r.Excellence
  | "Total" => r.Total
  | "Attempted" => r.Attempted
  | _ => none

/-- One credit cell of the year/level row tables (line 391):
`!(s[i] && s[i][cols[j]]) ? '' : s[i][cols[j]][0]` — blank only when the
field is absent, since a present wrapper array is truthy. -/
def ttCell (f : Option (List String)) : String :=
  match f with
  | none => ""
  | some l => jsHead l

/-- One row of a `YearTotals`/`LevelTotals` table: the wrapped period
label `s[i][yt]` and its six credit fields. -/
structure TTRow where
  label : List String
  fields : CreditFields
deriving DecidableEq, Repr

/-- Rendering of one table row (lines 389-391). -/
def ttRowRender (row : TTRow) : String :=
  "<td><strong>" ++ jsHead row.label ++ "</strong></td>"
    ++ String.join (colsManifest.map (fun c => "<td>" ++ ttCell (getCol row.fields c) ++ "</td>"))

/-- The `tt` table builder (lines 383-394):
`'<tr>' + r.join('</tr><tr>') + '</tr>'`. -/
def ttTable (rows : List TTRow) : String :=
  "<tr>" ++ String.intercalate "</tr><tr>" (rows.map ttRowRender) ++ "</tr>"

/-- A JavaScript value stored in a credit six-tuple entry: the empty
string chosen by the falsiness test, the raw wrapper array, or
`undefined`. -/
inductive JSVal where
  | str (s : String) : JSVal
  | arr (l : List String) : JSVal
  | undef : JSVal
deriving DecidableEq, Repr

/-- One six-tuple entry `!field ? '' : field` (lines 406-411 etc.):
blank exactly when the field is absent, else the wrapper array
itself. -/
def tupleCell (f : Option (List String)) : JSVal :=
  match f with
  | none => .str ""
  | some l => .arr l

/-- A field read without a falsiness guard: `undefined` when absent. -/
def jsField (f : Option (List String)) : JSVal :=
  match f with
  | none => .undef
  | some l => .arr l

/-- The `thisYear.Internal` / `thisYear.External` six-tuple
(lines 405-420): all-blank when the whole record is absent. -/
def creditsTuple (c : Option CreditFields) : List JSVal :=
  match c with
  | none => [.str "", .str "", .str "", .str "", .str "", .str ""]
  | some r => [tupleCell r.NotAchieved, tupleCell r.Achieved, tupleCell r.Merit,
      tupleCell r.Excellence, tupleCell r.Total, tupleCell r.Attempted]

/-- The `thisYear.Total` six-tuple (lines 421-428).  Line 424 tests
`$.CreditsInternal[0].Merit` — the Internal record — to decide whether
to blank the Merit cell, and reads the value from `CreditsTotal`; when
`CreditsTotal` is present but `CreditsInternal` is absent, that access
throws (`none`). -/
def creditsTotalTuple (internal total : Option CreditFields) : Option (List JSVal) :=
  match total with
  | none => some [.str "", .str "", .str "", .str "", .str "", .str ""]
  | some t =>
    match internal with
    | none => none
    | some i => some [tupleCell t.NotAchieved, tupleCell t.Achieved,
        (match i.Merit with
         | none => .str ""
         | some _ => jsField t.Merit),
        tupleCell t.Excellence, tupleCell t.Total, tupleCell t.Attempted]

/-! ## Claim C8 -/

/-- A credit record whose Merit field is absent. -/
def creditsNoMerit : CreditFields :=
  ⟨some ["1"], some ["2"], none, some ["3"], some ["10"], some ["12"]⟩

/-- A credit record with every field present and non-zero. -/
def creditsAll : CreditFields :=
  ⟨some ["4"], some ["5"], some ["6"], some ["7"], some ["20"], some ["24"]⟩

/-- C8 counterexample: the claim says a zero credit field renders blank
and never the string `"0"`, but a present field wrapping `"0"` is a
truthy array, so the row-table cell renders `"0"` and the six-tuple
keeps the wrapped value; moreover the Total tuple's Merit cell is blank
even though `CreditsTotal`'s Merit is present and non-zero, because the
code tests `CreditsInternal`'s Merit. -/
theorem c8_blank_over_zero_counterexample :
    ttCell (some ["0"]) = "0"
    ∧ tupleCell (some ["0"]) = .arr ["0"]
    ∧ creditsTotalTuple (some creditsNoMerit) (some creditsAll)
        = some [.arr ["4"], .arr ["5"], .str "", .arr ["7"], .arr ["20"], .arr ["24"]] := by
  decide

/-- Claim C8 as amended: a credit cell renders the empty string exactly
when the tested source field is absent (for the row tables, a present
field renders its `[0]` element — `"0"` included — and the six-tuples
keep the wrapper value of a present field); the falsiness test never
sees the wrapped number, so a zero value is not blanked; and the Total
six-tuple's Merit cell is blanked according to the presence of
`CreditsInternal`'s Merit field, not `CreditsTotal`'s. -/
theorem c8_blank_over_zero_amended (f : Option (List String)) (i t : CreditFields) :
    (f = none → ttCell f = "" ∧ tupleCell f = .str "")
    ∧ (∀ l, f = some l → ttCell f = jsHead l ∧ tupleCell f = .arr l)
    ∧ (i.Merit = none →
        creditsTotalTuple (some i) (some t)
          = some [tupleCell t.NotAchieved, tupleCell t.Achieved, .str "",
              tupleCell t.Excellence, tupleCell t.Total, tupleCell t.Attempted])
    ∧ (∀ lm, i.Merit = some lm →
        creditsTotalTuple (some i) (some t)
          = some [tupleCell t.NotAchieved, tupleCell t.Achieved, jsField t.Merit,
              tupleCell t.Excellence, tupleCell t.Total, tupleCell t.Attempted])
    ∧ creditsTuple none = [.str "", .str "", .str "", .str "", .str "", .str ""] := by
  refine ⟨?_, ?_, ?_, ?_, rfl⟩
  · rintro rfl
    exact ⟨rfl, rfl⟩
  · rintro l rfl
    exact ⟨rfl, rfl⟩
  · intro hm
    rw [creditsTotalTuple, hm]
  · intro lm hm
    rw [creditsTotalTuple, hm]

/-- Witness for C8 (amended) at concrete fields and records. -/
theorem c8_blank_over_zero_amended_witness :
    (ttCell none = "" ∧ tupleCell none = .str "")
    ∧ (ttCell (some ["0"]) = jsHead ["0"] ∧ tupleCell (some ["0"]) = .arr ["0"])
    ∧ creditsTotalTuple (some creditsNoMerit) (some creditsAll)
        = some [tupleCell creditsAll.NotAchieved, tupleCell creditsAll.Achieved, .str "",
            tupleCell creditsAll.Excellence, tupleCell creditsAll.Total,
            tupleCell creditsAll.Attempted] :=
  ⟨(c8_blank_over_zero_amended none creditsNoMerit creditsAll).1 rfl,
   (c8_blank_over_zero_amended (some ["0"]) creditsNoMerit creditsAll).2.1 ["0"] rfl,
   (c8_blank_over_zero_amended none creditsNoMerit creditsAll).2.2.1 rfl⟩

/-! ## Claim C9 -/

/-- The qualification-status fields `$.NCEA[0]` (lines 397-402). -/
structure NCEAFields where
  L1NCEA : List String
  L2NCEA : List String
  L3NCEA : List String
  NCEAUELIT : List String
  NCEAL1LIT : List String
  NCEANUM : List String
deriving DecidableEq, Repr

/-- A qualification row label: the source mixes numbers (1, 2, 3) and
strings. -/
inductive QualLabel where
  | num (n : Nat) : QualLabel
  | str (s : String) : QualLabel
deriving DecidableEq, Repr

/-- The student record of a `StudentNCEASummaryResults` response, with
each `[0]`-wrapped sub-record fused and absence modelled by `none`. -/
structure NCEAStudent where
  NCEA : Option NCEAFields
  CreditsInternal : Option CreditFields
  CreditsExternal : Option CreditFields
  CreditsTotal : Option CreditFields
  YearTotals : Option (List TTRow)
  LevelTotals : Option (List TTRow)
deriving DecidableEq, Repr

/-- The summary object constructed at lines 395-432. -/
structure NCEASummary where
  qualification : List (QualLabel × String)
  internalTuple : List JSVal
  externalTuple : List JSVal
  totalTuple : List JSVal
  year : String
  level : String
deriving DecidableEq, Repr

/-- Construction of the summary object (lines 395-432); `none` models a
thrown access on a missing `NCEA`, `CreditsInternal`-under-Total,
`YearTotals` or `LevelTotals` sub-record. -/
def buildNCEASummary (st : NCEAStudent) : Option NCEASummary :=
  match st.NCEA with
  | none => none
  | some q =>
    match creditsTotalTuple st.CreditsInternal st.CreditsTotal with
    | none => none
    | some tot =>
      match st.YearTotals with
      | none => none
      | some yr =>
        match st.LevelTotals with
        | none => none
        | some lv =>
          some ⟨[(.num 1, jsHead q.L1NCEA), (.num 2, jsHead q.L2NCEA),
                 (.num 3, jsHead q.L3NCEA), (.str "UE Literacy", jsHead q.NCEAUELIT),
                 (.str "L1 Literacy", jsHead q.NCEAL1LIT), (.str "Numeracy", jsHead q.NCEANUM)],
                creditsTuple st.CreditsInternal, creditsTuple st.CreditsExternal,
                tot, ttTable yr, ttTable lv⟩

/-- What `getNCEASummary` hands to `resolve`: the call at line 395 is
`resolve(null, summaryObject)` — two arguments, `null` first. -/
inductive NCEAResolved where
  | nullValue : NCEAResolved
  | summary (s : NCEASummary) : NCEAResolved
deriving DecidableEq, Repr

/-- The argument list of the `resolve` call at lines 395-432, when the
summary construction does not throw. -/
def nceaResolveArgs (st : NCEAStudent) : Option (List NCEAResolved) :=
  (buildNCEASummary st).map (fun s => [.nullValue, .summary s])

/-- A promise resolution takes only the first argument of `resolve`. -/
def promiseValue (l : List NCEAResolved) : Option NCEAResolved :=
  l.head?

/-- Claim C9: whenever the NCEA summary decode succeeds, the promise
fulfills with `null` — `resolve(null, summary)` passes the constructed
summary as the ignored second argument, so the summary object is never
the delivered value. -/
theorem c9_resolve_null (st : NCEAStudent) (args : List NCEAResolved) :
    nceaResolveArgs st = some args →
      promiseValue args = some .nullValue
      ∧ ∀ s, promiseValue args ≠ some (.summary s) := by
  intro h
  rw [nceaResolveArgs] at h
  cases hb : buildNCEASummary st with
  | none => rw [hb] at h; cases h
  | some s0 =>
    rw [hb] at h
    cases h
    refine ⟨rfl, ?_⟩
    intro s hc
    simp [promiseValue] at hc

/-- A concrete NCEA student record on which the decode succeeds. -/
def student0 : NCEAStudent :=
  { NCEA := some ⟨["Achieved"], ["Merit"], ["Not Achieved"], ["Y"], ["Y"], ["Y"]⟩
    CreditsInternal := some creditsNoMerit
    CreditsExternal := none
    CreditsTotal := some creditsAll
    YearTotals := some []
    LevelTotals := some [] }

/-- The summary `student0` decodes to. -/
def summary0 : NCEASummary :=
  { qualification :=
      [(.num 1, "Achieved"), (.num 2, "Merit"), (.num 3, "Not Achieved"),
       (.str "UE Literacy", "Y"), (.str "L1 Literacy", "Y"), (.str "Numeracy", "Y")]
    internalTuple := [.arr ["1"], .arr ["2"], .str "", .arr ["3"], .arr ["10"], .arr ["12"]]
    externalTuple := [.str "", .str "", .str "", .str "", .str "", .str ""]
    totalTuple := [.arr ["4"], .arr ["5"], .str "", .arr ["7"], .arr ["20"], .arr ["24"]]
    year := "<tr></tr>"
    level := "<tr></tr>" }

/-- Witness for C9 at the concrete record `student0`. -/
theorem c9_resolve_null_witness :
    promiseValue [.nullValue, .summary summary0] = some .nullValue :=
  (c9_resolve_null student0 [.nullValue, .summary summary0] (by decide)).1

/-! ## vCard export (src/index.js lines 464-481) -/

/-- JavaScript `s.replace(/\n/g, '\\n')` over the character list: each
line break becomes the literal two-character sequence backslash-n. -/
def escapeNewlinesList : List Char → List Char
  | [] => []
  | c :: cs => if c = '\n' then '\\' :: 'n' :: escapeNewlinesList cs else c :: escapeNewlinesList cs

/-- JavaScript `s.replace(/\n/g, '\\n')` on `String`. -/
def escapeNewlines (s : String) : String :=
  String.mk (escapeNewlinesList s.data)

/-- A custodial contact group as decoded by `getDetails`
(lines 250-258): only the fields the exporter reads. -/
structure LifeContact where
  Phone : String
  Address : String
deriving DecidableEq, Repr

/-- The emergency-contact group (lines 290-296), restricted to the
fields the exporter reads. -/
structure EmergencyInfo where
  Name : String
  phCell : String
deriving DecidableEq, Repr

/-- A decoded `PersonalDetails` record, restricted to the fields
`makevCardFromDetails` reads. -/
structure PersonalDetails where
  Names : List String
  ID : String
  Gender : List String
  Ethnicity : String
  Birthday : List String
  LifeA : LifeContact
  EmergencyContact : EmergencyInfo
deriving DecidableEq, Repr

/-- JavaScript `arr[i]` in string-concatenation position: an
out-of-range access coerces to the text `"undefined"`. -/
def jsIdxStr (l : List String) (i : Nat) : String :=
  l.getD i "undefined"

/-- The element list of `makevCardFromDetails` (lines 465-480), with
the nondeterministic `new Date().toISOString()` passed in as `now`. -/
def vCardLines (portal key : String) (d : PersonalDetails) (now : String) : List String :=
  ["BEGIN:VCARD",
   "VERSION:4.0",
   "N:" ++ jsIdxStr d.Names 2 ++ ";" ++ jsIdxStr d.Names 1 ++ ";;;",
   "NICKNAME:" ++ jsIdxStr d.Names 0,
   "FN:" ++ jsIdxStr d.Names 1,
   "ORG:Takapuna Grammar School Student #" ++ d.ID,
   "GENDER:" ++ jsIdxStr d.Gender 1,
   "TITLE:" ++ d.Ethnicity,
   "PHOTO;MEDIATYPE=image/jpeg:https://" ++ portal ++ "/api/img.php?Key=" ++ key
     ++ "&Stuid=" ++ d.ID,
   "TEL;TYPE=home,voice;home=uri:" ++ d.LifeA.Phone,
   "ADR;TYPE=home;home=\"" ++ escapeNewlines d.LifeA.Address ++ "\":;;"
     ++ escapeNewlines d.LifeA.Address,
   "EMAIL:" ++ d.ID ++ "@tgs.school.nz",
   "REV:" ++ now,
   "BDAY:" ++ jsIdxStr d.Birthday 0,
   "NOTE:Emergency Contact: " ++ d.EmergencyContact.Name ++ " (" ++ d.EmergencyContact.phCell ++ ")",
   "END:VCARD"]

/-- Line 480: the elements are joined with `'\n'`. -/
def makevCardFromDetails (portal key : String) (d : PersonalDetails) (now : String) : String :=
  String.intercalate "\n" (vCardLines portal key d now)

/-- The fixed property order of the emitted 16 lines, each entry being
the literal start of its line up to the first delimiter. -/
def vCardPropOrder : List String :=
  ["BEGIN:", "VERSION:", "N:", "NICKNAME:", "FN:", "ORG:", "GENDER:", "TITLE:",
   "PHOTO;", "TEL;", "ADR;", "EMAIL:", "REV:", "BDAY:", "NOTE:", "END:"]

theorem strPrefix_append (p rest : String) : p.data <+: (p ++ rest).data := by
  rw [String.data_append]
  exact ⟨rest.data, rfl⟩

theorem newline_not_mem_escape (l : List Char) : '\n' ∉ escapeNewlinesList l := by
  induction l with
  | nil => simp [escapeNewlinesList]
  | cons c cs ih =>
    by_cases hc : c = '\n'
    · simp only [escapeNewlinesList, if_pos hc]
      intro hmem
      rcases List.mem_cons.mp hmem with h | h
      · exact absurd h (by decide)
      · rcases List.mem_cons.mp h with h2 | h2
        · exact absurd h2 (by decide)
        · exact ih h2
    · simp only [escapeNewlinesList, if_neg hc]
      intro hmem
      rcases List.mem_cons.mp hmem with h | h
      · exact hc h.symm
      · exact ih h

/-- A concrete decoded details record; the home address embeds a line
break. -/
def details0 : PersonalDetails :=
  { Names := ["Jo", "Jordan", "Doe"]
    ID := "12345"
    Gender := ["M", "Male"]
    Ethnicity := "NZ European"
    Birthday := ["2006-05-04", "17"]
    LifeA := ⟨"09 555 1234", "1 Example St\nTakapuna"⟩
    EmergencyContact := ⟨"Sam Doe", "021 555 000"⟩ }

/-- C10 counterexample: the claim says the exporter produces a 13-15
line block, but the emitted element list always has 16 lines — here at
a concrete record. -/
theorem c10_vcard_counterexample :
    (vCardLines "school.example" "secret" details0 "2026-10-11T00:00:00.000Z").length = 16
    ∧ 15 < (vCardLines "school.example" "secret" details0 "2026-10-11T00:00:00.000Z").length := by
  constructor
  · rfl
  · decide

/-- Claim C10 as amended: for every decoded details record the exporter
produces a fixed 16-line newline-joined block in the fixed order
BEGIN/VERSION/N/NICKNAME/FN/ORG/GENDER/TITLE/PHOTO/TEL/ADR/EMAIL/REV/
BDAY/NOTE/END, and every embedded line break of the address field is
escaped to the literal two-character backslash-n sequence before
emission, so the emitted ADR line contains no raw line break. -/
theorem c10_vcard_amended (portal key : String) (d : PersonalDetails) (now : String) :
    (vCardLines portal key d now).length = 16
    ∧ List.Forall₂ (fun p l => p.data <+: l.data) vCardPropOrder (vCardLines portal key d now)
    ∧ makevCardFromDetails portal key d now
        = String.intercalate "\n" (vCardLines portal key d now)
    ∧ '\n' ∉ ((vCardLines portal key d now).getD 10 "").data := by
  refine ⟨rfl, ?_, rfl, ?_⟩
  · rw [vCardPropOrder, vCardLines]
    refine List.Forall₂.cons ⟨("VCARD" : String).data, by decide⟩ ?_
    refine List.Forall₂.cons ⟨("4.0" : String).data, by decide⟩ ?_
    refine List.Forall₂.cons (by simp only [String.append_assoc]; exact strPrefix_append _ _) ?_
    refine List.Forall₂.cons (strPrefix_append _ _) ?_
    refine List.Forall₂.cons (strPrefix_append _ _) ?_
    refine List.Forall₂.cons (List.IsPrefix.trans
      ⟨("Takapuna Grammar School Student #" : String).data, by decide⟩
      (strPrefix_append _ _)) ?_
    refine List.Forall₂.cons (strPrefix_append _ _) ?_
    refine List.Forall₂.cons (strPrefix_append _ _) ?_
    refine List.Forall₂.cons (List.IsPrefix.trans
      (show ("PHOTO;" : String).data <+: ("PHOTO;MEDIATYPE=image/jpeg:https://" : String).data
        from ⟨("MEDIATYPE=image/jpeg:https://" : String).data, by decide⟩)
      (by simp only [String.append_assoc]; exact strPrefix_append _ _)) ?_
    refine List.Forall₂.cons (List.IsPrefix.trans
      ⟨("TYPE=home,voice;home=uri:" : String).data, by decide⟩
      (strPrefix_append _ _)) ?_
    refine List.Forall₂.cons (List.IsPrefix.trans
      (show ("ADR;" : String).data <+: ("ADR;TYPE=home;home=\"" : String).data
        from ⟨("TYPE=home;home=\"" : String).data, by decide⟩)
      (by simp only [String.append_assoc]; exact strPrefix_append _ _)) ?_
    refine List.Forall₂.cons (by simp only [String.append_assoc]; exact strPrefix_append _ _) ?_
    refine List.Forall₂.cons (strPrefix_append _ _) ?_
    refine List.Forall₂.cons (strPrefix_append _ _) ?_
    refine List.Forall₂.cons (List.IsPrefix.trans
      (show ("NOTE:" : String).data <+: ("NOTE:Emergency Contact: " : String).data
        from ⟨("Emergency Contact: " : String).data, by decide⟩)
      (by simp only [String.append_assoc]; exact strPrefix_append _ _)) ?_
    refine List.Forall₂.cons ⟨("VCARD" : String).data, by decide⟩ ?_
    exact List.Forall₂.nil
  · show '\n' ∉ ("ADR;TYPE=home;home=\"" ++ escapeNewlines d.LifeA.Address ++ "\":;;"
      ++ escapeNewlines d.LifeA.Address).data
    simp only [String.data_append, List.mem_append]
    intro hmem
    rcases hmem with ((h | h) | h) | h
    · exact absurd h (by decide)
    · exact newline_not_mem_escape _ h
    · exact absurd h (by decide)
    · exact newline_not_mem_escape _ h

/-- Witness for C10 (amended) at the concrete record `details0`, whose
address embeds a line break. -/
theorem c10_vcard_amended_witness :
    (vCardLines "school.example" "secret" details0 "2026-10-11T00:00:00.000Z").length = 16
    ∧ makevCardFromDetails "school.example" "secret" details0 "2026-10-11T00:00:00.000Z"
        = String.intercalate "\n" (vCardLines "school.example" "secret" details0
            "2026-10-11T00:00:00.000Z") :=
  ⟨(c10_vcard_amended "school.example" "secret" details0 "2026-10-11T00:00:00.000Z").1,
   (c10_vcard_amended "school.example" "secret" details0 "2026-10-11T00:00:00.000Z").2.2.1⟩

end Kamar
